import Mathlib

/-!
Shallow embedding of the authentication core of the M1-W1_SimpleProject
repository (Express backend): the login, register, profile and logout
controllers and the token-verification middleware, together with models of
their external collaborators (bcrypt, jsonwebtoken, the prisma user store).

Sources embedded:
  backend/src/controllers/user/userLoginController.ts    (login)
  backend/src/controllers/user/userRegisterController.ts (register)
  backend/src/controllers/user/userGetController.ts      (getUser, logoutUser)
  backend/src/middlewares/authMiddleware.ts              (verifyToken)
  routes file (logout route wiring: verifyToken before the logout handler)
-/

/-! ## JavaScript string primitives used by the controllers -/

/-- The whitespace class of the JavaScript regexes and of `String.prototype.trim`,
restricted to the ASCII whitespace characters (the inputs of this application
are ASCII; the Unicode spaces are not modelled). -/
def isJsWs (c : Char) : Bool :=
  c == ' ' || c == '\t' || c == '\n' || c == '\r' || c == '\x0b' || c == '\x0c'

/-- Lower-casing of one character, as `String.prototype.toLowerCase` acts on the
ASCII range. -/
def jsCharLower (c : Char) : Char :=
  if 'A' ≤ c ∧ c ≤ 'Z' then Char.ofNat (c.toNat + 32) else c

/-- Model of `String.prototype.toLowerCase` on ASCII strings. -/
def jsToLower (s : String) : String :=
  String.mk (s.toList.map jsCharLower)

/-- Model of `String.prototype.trim`: drop whitespace from both ends. -/
def jsTrim (s : String) : String :=
  String.mk (((s.toList.dropWhile isJsWs).reverse.dropWhile isJsWs).reverse)

/-- Splitting a character list at every occurrence of a separator; the model of
`String.prototype.split` with a one-character separator (structural recursion so
that concrete instances evaluate inside the kernel). -/
def listSplit (sep : Char) : List Char → List (List Char)
  | [] => [[]]
  | c :: rest =>
    let r := listSplit sep rest
    if c == sep then [] :: r
    else
      match r with
      | [] => [[c]]
      | h :: t => (c :: h) :: t

/-- Model of `authHeader.split(' ')[1]`: the second space-separated chunk, if any. -/
def splitSpaceSecond (s : String) : Option String :=
  (listSplit ' ' s.toList)[1]?.map String.mk

/-! ## The email and name regexes of the controllers -/

/-- A character admissible inside the email regex chunks: `[^\s@]`. -/
def isEmailChar (c : Char) : Bool := !isJsWs c && c != '@'

/-- Model of `/^[^\s@]+@[^\s@]+\.[^\s@]+$/.test(s)` (both controllers use this
regex). The regex matches exactly when the string splits as
`local ++ "@" ++ mid ++ "." ++ rest` with the three chunks nonempty and free of
whitespace and of the at sign; equivalently: no whitespace anywhere, exactly one
at sign, at least one character before it, and after it a dot that is neither
the first nor the last character of the remainder. -/
def emailRegexTest (s : String) : Bool :=
  !(s.toList.takeWhile (fun c => c != '@')).isEmpty
    && (s.toList.count '@' == 1)
    && s.toList.all (fun c => !isJsWs c)
    && ((((s.toList.dropWhile (fun c => c != '@')).drop 1).drop 1).dropLast.contains '.')

/-- Model of `/^[a-zA-Z\s]+$/.test(s)` from the register controller. -/
def nameRegexTest (s : String) : Bool :=
  !s.toList.isEmpty && s.toList.all (fun c => c.isAlpha || isJsWs c)

/-- Model of `/[a-zA-Z]/.test(s)`. -/
def hasLetter (s : String) : Bool := s.toList.any Char.isAlpha

/-- Model of `/[0-9]/.test(s)`. -/
def hasDigit (s : String) : Bool := s.toList.any Char.isDigit

/-! ## External collaborators: bcrypt, the prisma user store -/

/-- Model of a bcrypt digest: the salt together with the hashed plaintext, kept
abstractly so that `bcrypt.compare` is exactly a comparison against the
plaintext the digest was produced from. The digest is never serialized into any
response type below, mirroring that the hash never leaves the server. -/
structure BcryptHash where
  salt : Nat
  plain : String
deriving DecidableEq, Repr

/-- Model of `bcrypt.hash(p, salt)`. -/
def bcryptHash (salt : Nat) (p : String) : BcryptHash := ⟨salt, p⟩

/-- Model of `bcrypt.compare(p, digest)`: true exactly when `p` is the plaintext
the digest was produced from. -/
def bcryptCompare (p : String) (h : BcryptHash) : Bool := p == h.plain

/-- A row of the prisma `user` table: id, name, email, password hash, creation
time (the prisma schema fields used by the controllers). -/
structure User where
  id : Nat
  name : String
  email : String
  password : BcryptHash
  createdAt : Nat
deriving DecidableEq, Repr

/-- Model of `prisma.user.findUnique({ where: { email } })` over a list-backed
store: the first row whose email equals the key. -/
def findUserByEmail (store : List User) (e : String) : Option User :=
  store.find? (fun u => u.email == e)

/-- The email normalization both controllers apply before the store lookup:
`email.toLowerCase().trim()`. -/
def normalizeEmail (e : String) : String := jsTrim (jsToLower e)

/-! ## The token service (model of the jsonwebtoken library) -/

/-- The claims object `{ id, email }` the login controller signs and the
middleware decodes. -/
structure JwtPayload where
  id : Nat
  email : String
deriving DecidableEq, Repr

/-- Decimal digits of a natural number (fuel-based structural recursion so that
concrete instances evaluate inside the kernel). -/
def natDigitsAux : Nat → Nat → List Char → List Char
  | 0, _, acc => acc
  | fuel + 1, n, acc =>
    let d := Char.ofNat (48 + n % 10)
    if n < 10 then d :: acc else natDigitsAux fuel (n / 10) (d :: acc)

/-- Decimal representation of a natural number as characters. -/
def natToChars (n : Nat) : List Char := natDigitsAux (n + 1) n []

/-- Parse a nonempty all-digit character list as a natural number. -/
def charsToNatAux : List Char → Nat → Option Nat
  | [], acc => some acc
  | c :: rest, acc =>
    if c.isDigit then charsToNatAux rest (acc * 10 + (c.toNat - 48)) else none

/-- Parse a character chunk as a natural number; fails on the empty chunk or on
a non-digit. -/
def charsToNat? (l : List Char) : Option Nat :=
  if l.isEmpty then none else charsToNatAux l 0

/-- Model of `jwt.sign({ id, email }, secret, { expiresIn })`: a wire string
carrying the claims, the expiry instant, and a signature determined by the
signing secret. -/
def jwtSign (payload : JwtPayload) (secret : String) (now expiresInSec : Nat) : String :=
  String.mk ("jwt".toList ++ '\n' :: natToChars payload.id
    ++ '\n' :: natToChars (now + expiresInSec)
    ++ '\n' :: ("sig:".toList ++ secret.toList)
    ++ '\n' :: payload.email.toList)

/-- The failure kinds of `jwt.verify` (the exceptions the library throws):
a token that does not parse, a signature produced under a different secret, and
an expired token. -/
inductive VerifyError where
  | malformed
  | badSignature
  | expired
deriving DecidableEq, Repr

/-- Model of `jwt.verify(token, secret)` at clock instant `now`: decode the wire
string, check the signature against the secret first, then the expiry; any
failure is an error (the library throws). -/
def jwtVerify (token : String) (secret : String) (now : Nat) :
    Except VerifyError JwtPayload :=
  match listSplit '\n' token.toList with
  | [hdr, idChunk, expChunk, sigChunk, emailChunk] =>
    if hdr ≠ "jwt".toList then .error .malformed
    else
      match charsToNat? idChunk, charsToNat? expChunk with
      | some id, some exp =>
        if sigChunk ≠ "sig:".toList ++ secret.toList then .error .badSignature
        else if exp ≤ now then .error .expired
        else .ok ⟨id, String.mk emailChunk⟩
      | _, _ => .error .malformed
  | _ => .error .malformed

/-! ## Response views -/

/-- The `{ id, name, email }` user object the login and register responses carry
(and nothing else of the row: no password, no creation time). -/
structure UserView where
  id : Nat
  name : String
  email : String
deriving DecidableEq, Repr

/-- The cookie attributes of `res.cookie('authToken', token, {...})` in the
login controller. -/
structure SetCookie where
  value : String
  httpOnly : Bool
  sameSiteLax : Bool
  maxAgeMs : Nat
deriving DecidableEq, Repr

/-- The observable response of the login endpoint: status, the single `message`
field of the JSON body, the optional `user` object of the body, and the
optional `Set-Cookie` for `authToken`. -/
structure LoginResp where
  status : Nat
  message : String
  user : Option UserView := none
  authCookie : Option SetCookie := none
deriving DecidableEq, Repr

/-! ## The login controller

Embeds `login` of backend/src/controllers/user/userLoginController.ts.
The request body fields arrive as `Option String`: `none` stands for an absent
or non-string value (rejected by the `typeof` guard), and the empty string is
falsy in JavaScript, so `!email || !password` rejects it as well. `jwtSecret`
is `process.env.JWT_SECRET` (`none` when unset or empty, both falsy). -/

def login (store : List User) (jwtSecret : Option String) (now : Nat)
    (email password : Option String) : LoginResp :=
  match email, password with
  | some e, some p =>
    if e = "" ∨ p = "" then
      { status := 400, message := "Email dan password wajib diisi!" }
    else if ¬ emailRegexTest e then
      { status := 400, message := "Format email tidak valid!" }
    else
      match findUserByEmail store (normalizeEmail e) with
      | none => { status := 401, message := "Email atau password tidak valid!" }
      | some user =>
        if ¬ bcryptCompare p user.password then
          { status := 401, message := "Email atau password tidak valid!" }
        else
          match jwtSecret with
          | none => { status := 500, message := "Terjadi kesalahan pada server." }
          | some secret =>
            { status := 200, message := "Login berhasil!",
              user := some ⟨user.id, user.name, user.email⟩,
              authCookie := some ⟨jwtSign ⟨user.id, user.email⟩ secret now 86400,
                                  true, true, 86400000⟩ }
  | _, _ => { status := 400, message := "Email dan password wajib diisi!" }

/-! ## The register controller

Embeds `register` of backend/src/controllers/user/userRegisterController.ts.
`nextId` is the id the store assigns to a created row, `salt` the salt
`bcrypt.genSalt(12)` produces for this request, `createdAt` the row timestamp. -/

/-- The observable response of the register endpoint: status, message, and the
`data: { id, name, email }` object of a 201 body. -/
structure RegisterResp where
  status : Nat
  message : String
  user : Option UserView := none
deriving DecidableEq, Repr

/-- The outcome of one register request: the response, the store after the
request, and whether the bcrypt hashing step was reached (the controller hashes
only after every validation and the duplicate check have passed). -/
structure RegisterOut where
  resp : RegisterResp
  store : List User
  hashInvoked : Bool
deriving DecidableEq, Repr

def register (store : List User) (nextId salt createdAt : Nat)
    (name email password : Option String) : RegisterOut :=
  match name, email, password with
  | some n, some e, some p =>
    if n = "" ∨ e = "" ∨ p = "" then
      ⟨{ status := 400, message := "Nama, email, dan password wajib diisi!" }, store, false⟩
    else
      let cleanName := jsTrim n
      let cleanEmail := normalizeEmail e
      if ¬ nameRegexTest cleanName ∨ cleanName.length < 2 ∨ cleanName.length > 100 then
        ⟨{ status := 400,
           message := "Nama hanya boleh terdiri dari huruf dan spasi (2-100 karakter)!" },
         store, false⟩
      else if ¬ emailRegexTest cleanEmail then
        ⟨{ status := 400, message := "Format email tidak valid!" }, store, false⟩
      else if p.length < 8 then
        ⟨{ status := 400, message := "Password minimal 8 karakter!" }, store, false⟩
      else if ¬ hasLetter p then
        ⟨{ status := 400, message := "Password harus mengandung minimal 1 huruf!" }, store, false⟩
      else if ¬ hasDigit p then
        ⟨{ status := 400, message := "Password harus mengandung minimal 1 angka!" }, store, false⟩
      else
        match findUserByEmail store cleanEmail with
        | some _ => ⟨{ status := 400, message := "Email sudah terdaftar!" }, store, false⟩
        | none =>
          let newUser : User := ⟨nextId, cleanName, cleanEmail, bcryptHash salt p, createdAt⟩
          ⟨{ status := 201, message := "Registrasi berhasil!",
             user := some ⟨nextId, cleanName, cleanEmail⟩ },
           store ++ [newUser], true⟩
  | _, _, _ =>
    ⟨{ status := 400, message := "Nama, email, dan password wajib diisi!" }, store, false⟩

/-! ## The profile controller

Embeds `getUser` of backend/src/controllers/user/userGetController.ts. -/

/-- The projection the prisma `select` clause of `getUser` returns: id, name,
email, createdAt. The type has no password field at all: the exclusion happens
at the query boundary. -/
structure Profile where
  id : Nat
  name : String
  email : String
  createdAt : Nat
deriving DecidableEq, Repr

/-- Model of `prisma.user.findUnique({ where: { id }, select: { id, name,
email, createdAt } })`: the lookup itself produces only the projection; the
password column is never selected. -/
def prismaUserSelectById (store : List User) (userId : Nat) : Option Profile :=
  (store.find? (fun u => u.id == userId)).map
    (fun u => { id := u.id, name := u.name, email := u.email, createdAt := u.createdAt })

/-- The observable response of the profile endpoint. -/
structure ProfileResp where
  status : Nat
  message : String
  data : Option Profile := none
deriving DecidableEq, Repr

/-- Embeds `getUser`: `req.user` is the payload the middleware attached; the
guard `if (!userId)` also fires on the (never-assigned) id 0, zero being falsy. -/
def getUser (store : List User) (reqUser : Option JwtPayload) : ProfileResp :=
  match reqUser with
  | none => { status := 401, message := "Tidak dapat mengautentikasi pengguna." }
  | some payload =>
    if payload.id = 0 then
      { status := 401, message := "Tidak dapat mengautentikasi pengguna." }
    else
      match prismaUserSelectById store payload.id with
      | none => { status := 404, message := "Pengguna tidak ditemukan." }
      | some profile =>
        { status := 200, message := "Data profil berhasil diambil.", data := some profile }

/-! ## The token-verification middleware

Embeds `verifyToken` of backend/src/middlewares/authMiddleware.ts. A request is
seen through the two carriers the middleware reads: the `authToken` cookie
value and the `authorization` header (`none` stands for an absent carrier). -/

/-- The two token carriers of a request. -/
structure AuthReq where
  cookieAuthToken : Option String
  authorization : Option String
deriving DecidableEq, Repr

/-- JavaScript falsiness of an optional string value: absent (`undefined`) or
the empty string. -/
def isFalsyStr : Option String → Bool
  | none => true
  | some s => s == ""

/-- Model of the JavaScript `a || b` on optional string values. -/
def jsOrStr (a b : Option String) : Option String :=
  if isFalsyStr a then b else a

/-- Model of `authHeader && authHeader.split(' ')[1]`: keep a falsy header as
is, otherwise take the second space-separated chunk (which may be absent when
the header holds no space). -/
def tokenFromHeaderOf (authHeader : Option String) : Option String :=
  match authHeader with
  | none => none
  | some h => if h = "" then some "" else splitSpaceSecond h

/-- The `{ message }` body and status of a middleware rejection. -/
structure MwResp where
  status : Nat
  message : String
deriving DecidableEq, Repr

/-- What the middleware does with a request: halt with a rejection response, or
attach the decoded payload as `req.user` and call `next()`. -/
inductive MWResult where
  | halt (r : MwResp)
  | proceed (user : JwtPayload)
deriving DecidableEq, Repr

/-- The verification step the middleware runs once a token string is in hand:
fail closed with a 500 when `JWT_SECRET` is unset (no fallback secret), then
map every `jwt.verify` exception to the one 403 rejection. -/
def verifyExtracted (token : String) (jwtSecret : Option String) (now : Nat) : MWResult :=
  match jwtSecret with
  | none => .halt ⟨500, "Terjadi kesalahan pada server."⟩
  | some secret =>
    match jwtVerify token secret now with
    | .ok payload => .proceed payload
    | .error _ => .halt ⟨403, "Token tidak valid atau sudah expired!"⟩

/-- Embeds `verifyToken`: `token = tokenFromCookie || tokenFromHeader`, the
falsy check `if (!token)` yielding the 401, then the secret check and
`jwt.verify`. -/
def verifyToken (req : AuthReq) (jwtSecret : Option String) (now : Nat) : MWResult :=
  let token := jsOrStr req.cookieAuthToken (tokenFromHeaderOf req.authorization)
  match token with
  | none => .halt ⟨401, "Token akses diperlukan!"⟩
  | some t =>
    if t = "" then .halt ⟨401, "Token akses diperlukan!"⟩
    else verifyExtracted t jwtSecret now

/-! ## The logout handler and its route

Embeds `logoutUser` of backend/src/controllers/user/userGetController.ts and
the route wiring of the routes file, which places `verifyToken` in front of the
handler. -/

/-- The observable response of the logout endpoint: status, message, and
whether `res.clearCookie('authToken', ...)` was issued. -/
structure LogoutResp where
  status : Nat
  message : String
  clearedAuthCookie : Bool
deriving DecidableEq, Repr

/-- Embeds `logoutUser`: clear the cookie, respond 200; the handler itself
never rejects, whatever `req.user` holds. -/
def logoutUser (_user : Option JwtPayload) : LogoutResp :=
  ⟨200, "Logout berhasil.", true⟩

/-- Embeds the route `router.post('/logout', verifyToken, logout)`: the
middleware runs first; a middleware rejection is returned as is (no cookie is
cleared), and only a verified request reaches the handler. -/
def logoutRoute (req : AuthReq) (jwtSecret : Option String) (now : Nat) : LogoutResp :=
  match verifyToken req jwtSecret now with
  | .halt r => ⟨r.status, r.message, false⟩
  | .proceed u => logoutUser (some u)

/-! ## Helper lemmas -/

/-- A find over an appended list, when the front part has no hit, is the find
over the back part. -/
lemma find?_append_of_none {α : Type} (p : α → Bool) {l₁ : List α} (l₂ : List α)
    (h : l₁.find? p = none) : (l₁ ++ l₂).find? p = l₂.find? p := by
  induction l₁ with
  | nil => rfl
  | cons a l ih =>
    cases hpa : p a with
    | true => rw [List.find?_cons_of_pos _ hpa] at h; cases h
    | false =>
      rw [List.find?_cons_of_neg _ (by simp [hpa])] at h
      rw [List.cons_append, List.find?_cons_of_neg _ (by simp [hpa])]
      exact ih h

/-- The head of a list is a member. -/
lemma mem_of_headq {α : Type} {l : List α} {a : α} (h : l.head? = some a) : a ∈ l := by
  cases l with
  | nil => cases h
  | cons x xs =>
    simp only [List.head?_cons, Option.some.injEq] at h
    exact h ▸ List.mem_cons_self x xs

/-- The last element of a list is a member. -/
lemma mem_of_getLastq {α : Type} {l : List α} {a : α} (h : l.getLast? = some a) : a ∈ l := by
  induction l with
  | nil => cases h
  | cons x xs ih =>
    cases xs with
    | nil =>
      simp only [List.getLast?_singleton, Option.some.injEq] at h
      exact h ▸ List.mem_cons_self x []
    | cons y ys =>
      rw [List.getLast?_cons_cons] at h
      exact List.mem_cons_of_mem x (ih h)

/-- A string containing a whitespace character fails the email regex. -/
lemma emailRegexTest_eq_false_of_ws {s : String} {c : Char}
    (hmem : c ∈ s.toList) (hws : isJsWs c = true) : emailRegexTest s = false := by
  have hall : s.toList.all (fun c => !isJsWs c) = false := by
    rw [List.all_eq_false]
    refine ⟨c, hmem, ?_⟩
    rw [hws]
    decide
  unfold emailRegexTest
  rw [hall]
  simp

/-- A nonempty string is not the empty string. -/
lemma ne_empty_of_toList_ne_nil {s : String} (h : s.toList ≠ []) : s ≠ "" := by
  intro he
  exact h (by rw [he]; rfl)

/-- A login whose email passes the format check but is unknown to the store is
rejected 401 with the uniform message. -/
lemma login_unknown_email (store : List User) (secret : Option String) (now : Nat)
    {e p : String} (he : e ≠ "") (hp : p ≠ "") (hfmt : emailRegexTest e = true)
    (hmiss : findUserByEmail store (normalizeEmail e) = none) :
    login store secret now (some e) (some p) =
      { status := 401, message := "Email atau password tidak valid!" } := by
  simp only [login]
  rw [if_neg (by simp [he, hp]), if_neg (by simp [hfmt]), hmiss]

/-- A login against a stored user whose password comparison fails is rejected
401 with the uniform message. -/
lemma login_wrong_password (store : List User) (secret : Option String) (now : Nat)
    {e p : String} {u : User} (he : e ≠ "") (hp : p ≠ "") (hfmt : emailRegexTest e = true)
    (hfound : findUserByEmail store (normalizeEmail e) = some u)
    (hbad : bcryptCompare p u.password = false) :
    login store secret now (some e) (some p) =
      { status := 401, message := "Email atau password tidak valid!" } := by
  simp only [login]
  rw [if_neg (by simp [he, hp]), if_neg (by simp [hfmt]), hfound]
  simp [hbad]

/-- A login with matching credentials while the signing secret is configured
succeeds with a 200, the user view, and the token cookie. -/
lemma login_success (store : List User) (sec : String) (now : Nat)
    {e p : String} {u : User} (he : e ≠ "") (hp : p ≠ "") (hfmt : emailRegexTest e = true)
    (hfound : findUserByEmail store (normalizeEmail e) = some u)
    (hgood : bcryptCompare p u.password = true) :
    login store (some sec) now (some e) (some p) =
      { status := 200, message := "Login berhasil!",
        user := some ⟨u.id, u.name, u.email⟩,
        authCookie := some ⟨jwtSign ⟨u.id, u.email⟩ sec now 86400, true, true, 86400000⟩ } := by
  simp only [login]
  rw [if_neg (by simp [he, hp]), if_neg (by simp [hfmt]), hfound]
  simp [hgood]

/-- A login with matching credentials while the signing secret is absent is a
500 server fault carrying neither a user view nor a cookie. -/
lemma login_no_secret (store : List User) (now : Nat)
    {e p : String} {u : User} (he : e ≠ "") (hp : p ≠ "") (hfmt : emailRegexTest e = true)
    (hfound : findUserByEmail store (normalizeEmail e) = some u)
    (hgood : bcryptCompare p u.password = true) :
    login store none now (some e) (some p) =
      { status := 500, message := "Terjadi kesalahan pada server." } := by
  simp only [login]
  rw [if_neg (by simp [he, hp]), if_neg (by simp [hfmt]), hfound]
  simp [hgood]

/-- A register request that passes every validation and whose normalized email
is free creates the row and answers 201. -/
lemma register_success (store : List User) (nextId salt ca : Nat)
    {n e p : String} (hn : n ≠ "") (he : e ≠ "") (hp : p ≠ "")
    (hname : nameRegexTest (jsTrim n) = true)
    (hlen2 : 2 ≤ (jsTrim n).length) (hlen100 : (jsTrim n).length ≤ 100)
    (hfmt : emailRegexTest (normalizeEmail e) = true)
    (hplen : 8 ≤ p.length) (hletter : hasLetter p = true) (hdigit : hasDigit p = true)
    (hmiss : findUserByEmail store (normalizeEmail e) = none) :
    register store nextId salt ca (some n) (some e) (some p) =
      ⟨{ status := 201, message := "Registrasi berhasil!",
         user := some ⟨nextId, jsTrim n, normalizeEmail e⟩ },
       store ++ [⟨nextId, jsTrim n, normalizeEmail e, bcryptHash salt p, ca⟩], true⟩ := by
  simp only [register]
  rw [if_neg (by simp [hn, he, hp]),
    if_neg (by push_neg; exact ⟨hname, by omega, by omega⟩),
    if_neg (by simp [hfmt]), if_neg (by omega),
    if_neg (by simp [hletter]), if_neg (by simp [hdigit]), hmiss]

/-- A register request that passes every validation but whose normalized email
is taken is rejected with the duplicate message, the store untouched and the
hashing step never reached. -/
lemma register_duplicate (store : List User) (nextId salt ca : Nat)
    {n e p : String} {u : User} (hn : n ≠ "") (he : e ≠ "") (hp : p ≠ "")
    (hname : nameRegexTest (jsTrim n) = true)
    (hlen2 : 2 ≤ (jsTrim n).length) (hlen100 : (jsTrim n).length ≤ 100)
    (hfmt : emailRegexTest (normalizeEmail e) = true)
    (hplen : 8 ≤ p.length) (hletter : hasLetter p = true) (hdigit : hasDigit p = true)
    (hfound : findUserByEmail store (normalizeEmail e) = some u) :
    register store nextId salt ca (some n) (some e) (some p) =
      ⟨{ status := 400, message := "Email sudah terdaftar!" }, store, false⟩ := by
  simp only [register]
  rw [if_neg (by simp [hn, he, hp]),
    if_neg (by push_neg; exact ⟨hname, by omega, by omega⟩),
    if_neg (by simp [hfmt]), if_neg (by omega),
    if_neg (by simp [hletter]), if_neg (by simp [hdigit]), hfound]

/-- Appending a fresh row with a given email makes it the row the lookup finds,
when the email was free before. -/
lemma findUserByEmail_append (store : List User) (u : User)
    (h : findUserByEmail store u.email = none) :
    findUserByEmail (store ++ [u]) u.email = some u := by
  unfold findUserByEmail at h ⊢
  rw [find?_append_of_none _ _ h]
  exact List.find?_cons_of_pos _ (by simp)

/-! ## Claim theorems -/

/-- C1: for every pair of login requests, one with an email not present in the
store and one with an existing email but a wrong password, the rejection is
identical in status code (401) and response body (the same single message), so
the two failure causes are externally indistinguishable. -/
theorem claim_C1_uniform_login_rejection
    (store : List User) (secret : Option String) (now : Nat)
    (e1 p1 e2 p2 : String) (u : User)
    (he1 : e1 ≠ "") (hp1 : p1 ≠ "") (hfmt1 : emailRegexTest e1 = true)
    (hmiss : findUserByEmail store (normalizeEmail e1) = none)
    (he2 : e2 ≠ "") (hp2 : p2 ≠ "") (hfmt2 : emailRegexTest e2 = true)
    (hfound : findUserByEmail store (normalizeEmail e2) = some u)
    (hbad : bcryptCompare p2 u.password = false) :
    login store secret now (some e1) (some p1) =
      { status := 401, message := "Email atau password tidak valid!" } ∧
    login store secret now (some e2) (some p2) =
      { status := 401, message := "Email atau password tidak valid!" } ∧
    login store secret now (some e1) (some p1) =
      login store secret now (some e2) (some p2) := by
  have h1 := login_unknown_email store secret now he1 hp1 hfmt1 hmiss
  have h2 := login_wrong_password store secret now he2 hp2 hfmt2 hfound hbad
  exact ⟨h1, h2, by rw [h1, h2]⟩

/-- Witness for C1 at a one-user store: an unknown email and a wrong password
against the stored email produce the same 401 response. -/
theorem claim_C1_witness :
    login [⟨1, "Jane", "jane@test.com", ⟨0, "secret123"⟩, 0⟩] (some "s") 0
        (some "ghost@test.com") (some "whatever1") =
      { status := 401, message := "Email atau password tidak valid!" } ∧
    login [⟨1, "Jane", "jane@test.com", ⟨0, "secret123"⟩, 0⟩] (some "s") 0
        (some "jane@test.com") (some "wrongpass1") =
      { status := 401, message := "Email atau password tidak valid!" } ∧
    login [⟨1, "Jane", "jane@test.com", ⟨0, "secret123"⟩, 0⟩] (some "s") 0
        (some "ghost@test.com") (some "whatever1") =
      login [⟨1, "Jane", "jane@test.com", ⟨0, "secret123"⟩, 0⟩] (some "s") 0
        (some "jane@test.com") (some "wrongpass1") :=
  claim_C1_uniform_login_rejection
    [⟨1, "Jane", "jane@test.com", ⟨0, "secret123"⟩, 0⟩] (some "s") 0
    "ghost@test.com" "whatever1" "jane@test.com" "wrongpass1"
    ⟨1, "Jane", "jane@test.com", ⟨0, "secret123"⟩, 0⟩
    (by decide) (by decide) (by decide) (by decide)
    (by decide) (by decide) (by decide) (by decide) (by decide)

/-- C4: every presented token that fails verification, whatever the failure
kind (bad signature, malformed, expired), produces the one 403 response with
the invalid-or-expired message; the middleware halts, so no decoded user is
attached and the protected handler never runs. -/
theorem claim_C4_uniform_token_rejection
    (req : AuthReq) (t s : String) (now : Nat) (e : VerifyError)
    (hextract : jsOrStr req.cookieAuthToken (tokenFromHeaderOf req.authorization) = some t)
    (htne : t ≠ "")
    (hfail : jwtVerify t s now = .error e) :
    verifyToken req (some s) now = .halt ⟨403, "Token tidak valid atau sudah expired!"⟩ := by
  simp only [verifyToken]
  rw [hextract]
  simp [verifyExtracted, htne, hfail]

/-- Witness for C4: a malformed token in the cookie is rejected 403. -/
theorem claim_C4_witness :
    verifyToken ⟨some "garbage", none⟩ (some "s") 0 =
      .halt ⟨403, "Token tidak valid atau sudah expired!"⟩ :=
  claim_C4_uniform_token_rejection ⟨some "garbage", none⟩ "garbage" "s" 0 .malformed
    (by decide) (by decide) (by rfl)

/-- C5: with the signing secret absent, a login that reaches token issuance is
a 500 with the generic message and carries neither a user view nor a token
cookie, and the middleware likewise halts with a 500 before any verification;
in the embedding the `none` secret branch constructs no token at all, so no
fallback secret exists in either issuance or verification. -/
theorem claim_C5_fail_closed_without_secret
    (store : List User) (now now2 : Nat) (e p : String) (u : User)
    (req : AuthReq) (t : String)
    (he : e ≠ "") (hp : p ≠ "") (hfmt : emailRegexTest e = true)
    (hfound : findUserByEmail store (normalizeEmail e) = some u)
    (hgood : bcryptCompare p u.password = true)
    (hextract : jsOrStr req.cookieAuthToken (tokenFromHeaderOf req.authorization) = some t)
    (htne : t ≠ "") :
    login store none now (some e) (some p) =
      { status := 500, message := "Terjadi kesalahan pada server." } ∧
    verifyToken req none now2 = .halt ⟨500, "Terjadi kesalahan pada server."⟩ := by
  refine ⟨login_no_secret store now he hp hfmt hfound hgood, ?_⟩
  simp only [verifyToken]
  rw [hextract]
  simp [verifyExtracted, htne]

/-- Witness for C5: correct credentials with no configured secret yield the 500
fault without a cookie, and the middleware faults on any presented token. -/
theorem claim_C5_witness :
    login [⟨1, "Jane", "jane@test.com", ⟨0, "secret123"⟩, 0⟩] none 0
        (some "jane@test.com") (some "secret123") =
      { status := 500, message := "Terjadi kesalahan pada server." } ∧
    verifyToken ⟨some "sometoken", none⟩ none 0 =
      .halt ⟨500, "Terjadi kesalahan pada server."⟩ :=
  claim_C5_fail_closed_without_secret _ 0 0 "jane@test.com" "secret123"
    ⟨1, "Jane", "jane@test.com", ⟨0, "secret123"⟩, 0⟩ ⟨some "sometoken", none⟩ "sometoken"
    (by decide) (by decide) (by decide) (by decide) (by decide) (by decide) (by decide)

/-- C6: a successful profile fetch returns exactly the projection id, name,
email, createdAt of the stored row; the `Profile` type of the query model has
no password field at all, mirroring that the password column is excluded at the
select clause of the query, not filtered afterwards. -/
theorem claim_C6_profile_projection
    (store : List User) (pid : Nat) (em : String) (u : User)
    (hpid : pid ≠ 0)
    (hfind : store.find? (fun x => x.id == pid) = some u) :
    getUser store (some ⟨pid, em⟩) =
      { status := 200, message := "Data profil berhasil diambil.",
        data := some { id := u.id, name := u.name, email := u.email,
                       createdAt := u.createdAt } } := by
  simp [getUser, hpid, prismaUserSelectById, hfind]

/-- Witness for C6 at a one-user store. -/
theorem claim_C6_witness :
    getUser [⟨1, "Jane", "jane@test.com", ⟨0, "secret123"⟩, 77⟩] (some ⟨1, "jane@test.com"⟩) =
      { status := 200, message := "Data profil berhasil diambil.",
        data := some { id := 1, name := "Jane", email := "jane@test.com",
                       createdAt := 77 } } :=
  claim_C6_profile_projection _ 1 "jane@test.com"
    ⟨1, "Jane", "jane@test.com", ⟨0, "secret123"⟩, 77⟩ (by decide) (by decide)

/-- C7: a register request that reaches the uniqueness check (all validations
pass) and whose normalized email is already stored is rejected 400 with the
duplicate message, the store is returned unchanged, and the hashing step is
never reached. The lookup key is the lower-cased, trimmed email, so the match
is case- and whitespace-insensitive. -/
theorem claim_C7_duplicate_email_rejected
    (store : List User) (nextId salt ca : Nat)
    (n e p : String) (u : User)
    (hn : n ≠ "") (he : e ≠ "") (hp : p ≠ "")
    (hname : nameRegexTest (jsTrim n) = true)
    (hlen2 : 2 ≤ (jsTrim n).length) (hlen100 : (jsTrim n).length ≤ 100)
    (hfmt : emailRegexTest (normalizeEmail e) = true)
    (hplen : 8 ≤ p.length) (hletter : hasLetter p = true) (hdigit : hasDigit p = true)
    (hfound : findUserByEmail store (normalizeEmail e) = some u) :
    register store nextId salt ca (some n) (some e) (some p) =
      ⟨{ status := 400, message := "Email sudah terdaftar!" }, store, false⟩ :=
  register_duplicate store nextId salt ca hn he hp hname hlen2 hlen100 hfmt
    hplen hletter hdigit hfound

/-- Witness for C7: registering with an upper-cased, whitespace-padded variant
of a stored email is rejected as a duplicate and the store is unchanged. -/
theorem claim_C7_witness :
    register [⟨1, "Jane", "jane@test.com", ⟨0, "secret123"⟩, 0⟩] 2 5 9
        (some "Jane Doe") (some " JANE@Test.com ") (some "secret123") =
      ⟨{ status := 400, message := "Email sudah terdaftar!" },
       [⟨1, "Jane", "jane@test.com", ⟨0, "secret123"⟩, 0⟩], false⟩ :=
  claim_C7_duplicate_email_rejected _ 2 5 9 "Jane Doe" " JANE@Test.com " "secret123"
    ⟨1, "Jane", "jane@test.com", ⟨0, "secret123"⟩, 0⟩
    (by decide) (by decide) (by decide) (by decide) (by decide) (by decide)
    (by decide) (by decide) (by decide) (by decide) (by decide)

/-- Counterexample to C2 as stated: a logout request carrying no session cookie
and no authorization header is rejected 401 by the token middleware the route
places in front of the handler; it is not answered 200 and the cookie is not
cleared. -/
theorem claim_C2_counterexample :
    logoutRoute ⟨none, none⟩ (some "s") 0 = ⟨401, "Token akses diperlukan!", false⟩ ∧
    (logoutRoute ⟨none, none⟩ (some "s") 0).status ≠ 200 ∧
    (logoutRoute ⟨none, none⟩ (some "s") 0).clearedAuthCookie = false := by
  decide

/-- C2 amended: the logout handler itself is total: it always answers 200 and
clears the cookie, for any attached user; but the route runs `verifyToken`
first, so only requests whose token verifies reach it, and those are answered
200 with the cookie cleared. -/
theorem claim_C2_logout_behind_middleware :
    (∀ (req : AuthReq) (s : Option String) (now : Nat) (u : JwtPayload),
      verifyToken req s now = MWResult.proceed u →
      logoutRoute req s now = ⟨200, "Logout berhasil.", true⟩) ∧
    (∀ u : Option JwtPayload, logoutUser u = ⟨200, "Logout berhasil.", true⟩) := by
  constructor
  · intro req s now u h
    unfold logoutRoute
    rw [h]
    rfl
  · intro u
    rfl

/-- Witness for C2 amended: a logout request with a freshly signed valid token
is answered 200 and the cookie is cleared. -/
theorem claim_C2_witness :
    logoutRoute ⟨some (jwtSign ⟨1, "jane@test.com"⟩ "s" 0 86400), none⟩ (some "s") 50 =
      ⟨200, "Logout berhasil.", true⟩ :=
  claim_C2_logout_behind_middleware.1
    ⟨some (jwtSign ⟨1, "jane@test.com"⟩ "s" 0 86400), none⟩ (some "s") 50
    ⟨1, "jane@test.com"⟩ (by decide)

/-- Counterexample to C3 as stated: the triple (Jane Doe, "jane@test.com " with
a trailing space, secret123) satisfies the register validation policy (the
email is normalized before its format check), register answers 201, yet a login
with the very same email string is rejected 400 by the raw-input format check,
not 200. -/
theorem claim_C3_counterexample :
    (register [] 1 0 0 (some "Jane Doe") (some "jane@test.com ") (some "secret123")).resp.status
      = 201 ∧
    login (register [] 1 0 0 (some "Jane Doe") (some "jane@test.com ") (some "secret123")).store
        (some "s") 0 (some "jane@test.com ") (some "secret123") =
      { status := 400, message := "Format email tidak valid!" } := by
  decide

/-- C3 amended: for every triple satisfying the validation policy whose raw
email string also passes the login format check as submitted (in particular
carries no surrounding whitespace), whose normalized email is free, and with
the signing secret configured, register answers 201 with the fresh id and a
subsequent login with the same email and password answers 200 with the same
id. -/
theorem claim_C3_register_then_login
    (store : List User) (nextId salt ca : Nat) (sec : String) (now : Nat)
    (n e p : String)
    (hn : n ≠ "") (he : e ≠ "") (hp : p ≠ "")
    (hname : nameRegexTest (jsTrim n) = true)
    (hlen2 : 2 ≤ (jsTrim n).length) (hlen100 : (jsTrim n).length ≤ 100)
    (hfmt : emailRegexTest (normalizeEmail e) = true)
    (hraw : emailRegexTest e = true)
    (hplen : 8 ≤ p.length) (hletter : hasLetter p = true) (hdigit : hasDigit p = true)
    (hmiss : findUserByEmail store (normalizeEmail e) = none) :
    (register store nextId salt ca (some n) (some e) (some p)).resp.status = 201 ∧
    (register store nextId salt ca (some n) (some e) (some p)).resp.user =
      some ⟨nextId, jsTrim n, normalizeEmail e⟩ ∧
    login (register store nextId salt ca (some n) (some e) (some p)).store (some sec) now
        (some e) (some p) =
      { status := 200, message := "Login berhasil!",
        user := some ⟨nextId, jsTrim n, normalizeEmail e⟩,
        authCookie := some ⟨jwtSign ⟨nextId, normalizeEmail e⟩ sec now 86400,
                            true, true, 86400000⟩ } := by
  have hreg := register_success store nextId salt ca hn he hp hname hlen2 hlen100 hfmt
    hplen hletter hdigit hmiss
  refine ⟨by rw [hreg], by rw [hreg], ?_⟩
  rw [hreg]
  have hfound :
      findUserByEmail
        (store ++ [⟨nextId, jsTrim n, normalizeEmail e, bcryptHash salt p, ca⟩])
        (normalizeEmail e) = some ⟨nextId, jsTrim n, normalizeEmail e, bcryptHash salt p, ca⟩ :=
    findUserByEmail_append store _ hmiss
  have hcmp : bcryptCompare p
      (⟨nextId, jsTrim n, normalizeEmail e, bcryptHash salt p, ca⟩ : User).password = true := by
    simp [bcryptCompare, bcryptHash]
  exact login_success _ sec now he hp hraw hfound hcmp

/-- Witness for C3 amended at the concrete scenario of the specification with
the whitespace removed from the submitted email. -/
theorem claim_C3_witness :
    (register [] 7 3 0 (some "Jane Doe") (some "JANE@Test.com") (some "secret123")).resp.status
      = 201 ∧
    (register [] 7 3 0 (some "Jane Doe") (some "JANE@Test.com") (some "secret123")).resp.user =
      some ⟨7, "Jane Doe", "jane@test.com"⟩ ∧
    login (register [] 7 3 0 (some "Jane Doe") (some "JANE@Test.com") (some "secret123")).store
        (some "s") 0 (some "JANE@Test.com") (some "secret123") =
      { status := 200, message := "Login berhasil!",
        user := some ⟨7, "Jane Doe", "jane@test.com"⟩,
        authCookie := some ⟨jwtSign ⟨7, "jane@test.com"⟩ "s" 0 86400,
                            true, true, 86400000⟩ } :=
  claim_C3_register_then_login [] 7 3 0 "s" 0 "Jane Doe" "JANE@Test.com" "secret123"
    (by decide) (by decide) (by decide) (by decide) (by decide) (by decide)
    (by decide) (by decide) (by decide) (by decide) (by decide) (by decide)

/-- C9: login runs the email format check on the raw, un-normalized input, so
any email with leading or trailing whitespace is rejected 400 with the format
message, even when the trimmed, lower-cased email belongs to a stored user and
the password is correct (register, by contrast, checks the normalized email, as
visible in its definition). -/
theorem claim_C9_login_rejects_padded_email
    (store : List User) (secret : Option String) (now : Nat)
    (e p : String) (u : User) (c : Char)
    (hedge : e.toList.head? = some c ∨ e.toList.getLast? = some c)
    (hws : isJsWs c = true)
    (hp : p ≠ "")
    (_hfound : findUserByEmail store (normalizeEmail e) = some u)
    (_hgood : bcryptCompare p u.password = true) :
    login store secret now (some e) (some p) =
      { status := 400, message := "Format email tidak valid!" } := by
  have hmem : c ∈ e.toList := hedge.elim mem_of_headq mem_of_getLastq
  have hfalse : emailRegexTest e = false := emailRegexTest_eq_false_of_ws hmem hws
  have hne : e ≠ "" := ne_empty_of_toList_ne_nil (by
    intro h
    rw [h] at hmem
    cases hmem)
  simp only [login]
  rw [if_neg (by simp [hne, hp]), if_pos (by simp [hfalse])]

/-- Witness for C9: a login with a leading space on a registered email and the
correct password is rejected by the format check. -/
theorem claim_C9_witness :
    login [⟨1, "Jane", "jane@test.com", ⟨0, "secret123"⟩, 0⟩] (some "s") 0
        (some " jane@test.com") (some "secret123") =
      { status := 400, message := "Format email tidak valid!" } :=
  claim_C9_login_rejects_padded_email
    [⟨1, "Jane", "jane@test.com", ⟨0, "secret123"⟩, 0⟩] (some "s") 0
    " jane@test.com" "secret123" ⟨1, "Jane", "jane@test.com", ⟨0, "secret123"⟩, 0⟩ ' '
    (Or.inl (by decide)) (by decide) (by decide) (by decide) (by decide)

/-- A register request reaching the password rules with a password shorter than
8 characters is rejected with the length message. -/
lemma register_password_short (store : List User) (nextId salt ca : Nat)
    {n e p : String} (hn : n ≠ "") (he : e ≠ "") (hp : p ≠ "")
    (hname : nameRegexTest (jsTrim n) = true)
    (hlen2 : 2 ≤ (jsTrim n).length) (hlen100 : (jsTrim n).length ≤ 100)
    (hfmt : emailRegexTest (normalizeEmail e) = true)
    (hshort : p.length < 8) :
    register store nextId salt ca (some n) (some e) (some p) =
      ⟨{ status := 400, message := "Password minimal 8 karakter!" }, store, false⟩ := by
  simp only [register]
  rw [if_neg (by simp [hn, he, hp]),
    if_neg (by push_neg; exact ⟨hname, by omega, by omega⟩),
    if_neg (by simp [hfmt]), if_pos hshort]

/-- A register request reaching the password rules with a long-enough password
holding no letter is rejected with the letter message. -/
lemma register_password_no_letter (store : List User) (nextId salt ca : Nat)
    {n e p : String} (hn : n ≠ "") (he : e ≠ "") (hp : p ≠ "")
    (hname : nameRegexTest (jsTrim n) = true)
    (hlen2 : 2 ≤ (jsTrim n).length) (hlen100 : (jsTrim n).length ≤ 100)
    (hfmt : emailRegexTest (normalizeEmail e) = true)
    (hplen : 8 ≤ p.length) (hnol : hasLetter p = false) :
    register store nextId salt ca (some n) (some e) (some p) =
      ⟨{ status := 400, message := "Password harus mengandung minimal 1 huruf!" },
       store, false⟩ := by
  simp only [register]
  rw [if_neg (by simp [hn, he, hp]),
    if_neg (by push_neg; exact ⟨hname, by omega, by omega⟩),
    if_neg (by simp [hfmt]), if_neg (by omega), if_pos (by simp [hnol])]

/-- A register request reaching the password rules with a long-enough password
holding a letter but no digit is rejected with the digit message. -/
lemma register_password_no_digit (store : List User) (nextId salt ca : Nat)
    {n e p : String} (hn : n ≠ "") (he : e ≠ "") (hp : p ≠ "")
    (hname : nameRegexTest (jsTrim n) = true)
    (hlen2 : 2 ≤ (jsTrim n).length) (hlen100 : (jsTrim n).length ≤ 100)
    (hfmt : emailRegexTest (normalizeEmail e) = true)
    (hplen : 8 ≤ p.length) (hletter : hasLetter p = true) (hnod : hasDigit p = false) :
    register store nextId salt ca (some n) (some e) (some p) =
      ⟨{ status := 400, message := "Password harus mengandung minimal 1 angka!" },
       store, false⟩ := by
  simp only [register]
  rw [if_neg (by simp [hn, he, hp]),
    if_neg (by push_neg; exact ⟨hname, by omega, by omega⟩),
    if_neg (by simp [hfmt]), if_neg (by omega), if_neg (by simp [hletter]),
    if_pos (by simp [hnod])]

/-- Counterexample to C8 as stated: the password "short1" has 6 characters, not
7 as the claim describes it; the behavioral part is real: the code rejects it
with the length-specific message. -/
theorem claim_C8_counterexample :
    "short1".length = 6 ∧ "short1".length ≠ 7 ∧
    (register [] 1 0 0 (some "Jane Doe") (some "jane@test.com") (some "short1")).resp =
      { status := 400, message := "Password minimal 8 karakter!" } := by
  decide

/-- C8 amended: each failing password rule yields its own distinct validation
message: any too-short password gets the length message, any long-enough
password without a letter the letter message, any long-enough password with a
letter but no digit the digit message; in particular the 6-character "short1"
is rejected with the length-specific message and "longenough" (no digit) with
the digit-specific message, and the three messages are pairwise distinct. -/
theorem claim_C8_distinct_password_messages
    (store : List User) (nextId salt ca : Nat) (n e : String)
    (hn : n ≠ "") (he : e ≠ "")
    (hname : nameRegexTest (jsTrim n) = true)
    (hlen2 : 2 ≤ (jsTrim n).length) (hlen100 : (jsTrim n).length ≤ 100)
    (hfmt : emailRegexTest (normalizeEmail e) = true) :
    (∀ p : String, p ≠ "" → p.length < 8 →
      register store nextId salt ca (some n) (some e) (some p) =
        ⟨{ status := 400, message := "Password minimal 8 karakter!" }, store, false⟩) ∧
    (∀ p : String, p ≠ "" → 8 ≤ p.length → hasLetter p = false →
      register store nextId salt ca (some n) (some e) (some p) =
        ⟨{ status := 400, message := "Password harus mengandung minimal 1 huruf!" },
         store, false⟩) ∧
    (∀ p : String, p ≠ "" → 8 ≤ p.length → hasLetter p = true → hasDigit p = false →
      register store nextId salt ca (some n) (some e) (some p) =
        ⟨{ status := 400, message := "Password harus mengandung minimal 1 angka!" },
         store, false⟩) ∧
    register store nextId salt ca (some n) (some e) (some "short1") =
      ⟨{ status := 400, message := "Password minimal 8 karakter!" }, store, false⟩ ∧
    register store nextId salt ca (some n) (some e) (some "longenough") =
      ⟨{ status := 400, message := "Password harus mengandung minimal 1 angka!" },
       store, false⟩ ∧
    ("Password minimal 8 karakter!" ≠ "Password harus mengandung minimal 1 huruf!" ∧
     "Password minimal 8 karakter!" ≠ "Password harus mengandung minimal 1 angka!" ∧
     "Password harus mengandung minimal 1 huruf!" ≠
       "Password harus mengandung minimal 1 angka!") := by
  refine ⟨?_, ?_, ?_, ?_, ?_, by decide, by decide, by decide⟩
  · intro p hp hshort
    exact register_password_short store nextId salt ca hn he hp hname hlen2 hlen100 hfmt hshort
  · intro p hp hplen hnol
    exact register_password_no_letter store nextId salt ca hn he hp hname hlen2 hlen100 hfmt
      hplen hnol
  · intro p hp hplen hletter hnod
    exact register_password_no_digit store nextId salt ca hn he hp hname hlen2 hlen100 hfmt
      hplen hletter hnod
  · exact register_password_short store nextId salt ca hn he (by decide) hname hlen2 hlen100
      hfmt (by decide)
  · exact register_password_no_digit store nextId salt ca hn he (by decide) hname hlen2 hlen100
      hfmt (by decide) (by decide) (by decide)

/-- Witness for C8 amended at a concrete store and request fields: the two
concrete passwords of the specification scenario draw their rule-specific
messages. -/
theorem claim_C8_witness :
    register [] 1 0 0 (some "Jane Doe") (some "jane@test.com") (some "short1") =
      ⟨{ status := 400, message := "Password minimal 8 karakter!" }, [], false⟩ ∧
    register [] 1 0 0 (some "Jane Doe") (some "jane@test.com") (some "longenough") =
      ⟨{ status := 400, message := "Password harus mengandung minimal 1 angka!" },
       [], false⟩ :=
  ⟨(claim_C8_distinct_password_messages [] 1 0 0 "Jane Doe" "jane@test.com"
      (by decide) (by decide) (by decide) (by decide) (by decide) (by decide)).2.2.2.1,
   (claim_C8_distinct_password_messages [] 1 0 0 "Jane Doe" "jane@test.com"
      (by decide) (by decide) (by decide) (by decide) (by decide) (by decide)).2.2.2.2.1⟩

/-- Counterexample to C10 as stated: with an empty-string cookie and a present
authorization header that holds no space, the extracted chunk after the first
space does not exist, and the middleware reports the no-token 401 even though
the header is present. -/
theorem claim_C10_counterexample :
    verifyToken ⟨some "", some "sometoken"⟩ (some "s") 0 =
      .halt ⟨401, "Token akses diperlukan!"⟩ ∧
    (some "sometoken" : Option String) ≠ none := by
  decide

/-- C10 amended: an empty-string `authToken` cookie is treated exactly as an
absent cookie (the middleware behaves identically), the fallback uses the
second space-separated chunk of the authorization header when that chunk exists
and is nonempty, and the no-token 401 is reported when the header is missing,
or present but yielding no nonempty chunk after the first space. -/
theorem claim_C10_empty_cookie_fallback :
    (∀ (ah : Option String) (s : Option String) (now : Nat),
      verifyToken ⟨some "", ah⟩ s now = verifyToken ⟨none, ah⟩ s now) ∧
    (∀ (s : Option String) (now : Nat),
      verifyToken ⟨some "", none⟩ s now = .halt ⟨401, "Token akses diperlukan!"⟩) ∧
    (∀ (h t : String) (s : Option String) (now : Nat),
      splitSpaceSecond h = some t → t ≠ "" →
      verifyToken ⟨some "", some h⟩ s now = verifyExtracted t s now) ∧
    (∀ (h : String) (s : Option String) (now : Nat),
      splitSpaceSecond h = some "" →
      verifyToken ⟨some "", some h⟩ s now = .halt ⟨401, "Token akses diperlukan!"⟩) := by
  refine ⟨?_, ?_, ?_, ?_⟩
  · intro ah s now
    rfl
  · intro s now
    rfl
  · intro h t s now hsplit htne
    have hne : h ≠ "" := by
      intro hh
      rw [hh] at hsplit
      have hnone : splitSpaceSecond "" = none := rfl
      rw [hnone] at hsplit
      cases hsplit
    simp [verifyToken, jsOrStr, isFalsyStr, tokenFromHeaderOf, hne, hsplit, htne]
  · intro h s now hsplit
    have hne : h ≠ "" := by
      intro hh
      rw [hh] at hsplit
      have hnone : splitSpaceSecond "" = none := rfl
      rw [hnone] at hsplit
      cases hsplit
    simp [verifyToken, jsOrStr, isFalsyStr, tokenFromHeaderOf, hne, hsplit]

/-- Witness for C10 amended: with an empty cookie and the header Bearer tok,
the middleware verifies exactly the chunk tok. -/
theorem claim_C10_witness :
    verifyToken ⟨some "", some "Bearer tok"⟩ (some "s") 0 =
      verifyExtracted "tok" (some "s") 0 :=
  claim_C10_empty_cookie_fallback.2.2.1 "Bearer tok" "tok" (some "s") 0
    (by decide) (by decide)
